import Mathlib

/-!
Verification of the ExaConstit mechanics driver
(src/miniapps/exaconstit/mechanics_driver.cpp) against its specification.

The C++ driver is shallowly embedded: pure routines become Lean functions,
the driver control flow becomes explicit state passing, machine doubles are
modelled by exact rationals, and operations that crash (null dereference,
failed MFEM_VERIFY) return Except values.
-/

/-- The six model-selection booleans of the driver, in the order they are
declared in main (lines 161-166 of mechanics_driver.cpp). -/
structure MatFlags where
  hyperelastic : Bool
  umat : Bool
  cp : Bool
  grain_euler : Bool
  grain_q : Bool
  grain_uniform : Bool
deriving DecidableEq, Repr

/-- Embeds `checkMaterialArgs` (mechanics_driver.cpp lines 758-814) including
the mutations it performs on its by-value parameters: the result is the pair
of the returned error code and the final values of the local flag copies.
The C function first forces every other flag false when `hyperelastic` is
set, then forces the grain flags false when `umat` is set, and finally runs
the else-if chain of crystal-plasticity consistency checks. -/
def checkMaterialArgsRun (hyperelastic umat cp grain_euler grain_q grain_uniform : Bool)
    (ngrains : Int) : Int × MatFlags :=
  let err : Int := 0
  let umat := if hyperelastic then false else umat
  let cp := if hyperelastic then false else cp
  let grain_euler := if hyperelastic then false else grain_euler
  let grain_q := if hyperelastic then false else grain_q
  let grain_uniform := if hyperelastic then false else grain_uniform
  let grain_euler := if umat then false else grain_euler
  let grain_q := if umat then false else grain_q
  let grain_uniform := if umat then false else grain_uniform
  let err :=
    if cp && !grain_euler && !grain_q && !grain_uniform then 1
    else if cp && grain_euler && grain_q then 1
    else if cp && grain_euler && grain_uniform then 1
    else if cp && grain_q && grain_uniform then 1
    else if cp && decide (ngrains < 1) then 1
    else err
  (err, ⟨hyperelastic, umat, cp, grain_euler, grain_q, grain_uniform⟩)

/-- The value `checkMaterialArgs` actually returns to its caller.  All seven
parameters are passed by value in the C signature (lines 758-759), so the
error code is the only information that flows back to main. -/
def checkMaterialArgs (hyperelastic umat cp grain_euler grain_q grain_uniform : Bool)
    (ngrains : Int) : Int :=
  (checkMaterialArgsRun hyperelastic umat cp grain_euler grain_q grain_uniform ngrains).1

/-- Main's validation step (mechanics_driver.cpp line 239): it calls
`checkMaterialArgs` on its parsed flag variables and keeps only the returned
error code; because every argument is passed by value, main's own flag
variables after the call are exactly the parsed ones. -/
def mainValidation (parsed : MatFlags) (ngrains : Int) : Int × MatFlags :=
  (checkMaterialArgs parsed.hyperelastic parsed.umat parsed.cp parsed.grain_euler
     parsed.grain_q parsed.grain_uniform ngrains, parsed)

/-- The constitutive model bound into the mechanics operator. -/
inductive ConstitutiveModel where
  | abaqusUmat
  | neoHookean (mu k : ℚ)
  | unset
deriving DecidableEq, Repr

/-- Embeds the model-selection branch of the NonlinearMechOperator
constructor (mechanics_driver.cpp lines 588-598): `if (umat)` binds the
Abaqus UMAT model, `else if (hyperelastic)` binds NeoHookeanModel(0.25, 5.0),
else no domain integrator is added at all. -/
def selectModel (hyperelastic umat : Bool) : ConstitutiveModel :=
  if umat then .abaqusUmat
  else if hyperelastic then .neoHookean (1/4) 5
  else .unset

/-- True when exactly one of the three grain-orientation representations
is selected. -/
def exactlyOneOrientation (grain_euler grain_q grain_uniform : Bool) : Bool :=
  (grain_euler && !grain_q && !grain_uniform) ||
  (!grain_euler && grain_q && !grain_uniform) ||
  (!grain_euler && !grain_q && grain_uniform)

/-- Outcome of an early-main phase: either the process returns from main with
an exit code (after MPI_Finalize) or control flow continues. -/
inductive ExitOutcome where
  | exit (code : Int)
  | next
deriving DecidableEq, Repr

/-- Whether the two input files open successfully on this machine. -/
structure FileEnv where
  meshFileOpens : Bool
  grainFileOpens : Bool
deriving DecidableEq, Repr

/-- Embeds the mesh-opening block of main (mechanics_driver.cpp lines
246-264).  In the cubit branch the mesh constructor is called with no
existence check; in the stream branch a failed `ifstream` is reported on
rank 0 and main returns 2 after MPI_Finalize.  Returns whether an error was
reported on this rank together with the control-flow outcome. -/
def meshOpenPhase (cubit : Bool) (env : FileEnv) (myid : Nat) : Bool × ExitOutcome :=
  if cubit then (false, .next)
  else if !env.meshFileOpens then (myid == 0, .exit 2)
  else (false, .next)

/-- Embeds the grain-file check of main (mechanics_driver.cpp lines
279-286): when `cp` is set, a grain `ifstream` is opened and a failure is
reported on rank 0, but there is no return statement; execution always
falls through to the rest of main. -/
def grainOpenPhase (cp : Bool) (env : FileEnv) (myid : Nat) : Bool × ExitOutcome :=
  if cp && !env.grainFileOpens then (myid == 0, .next)
  else (false, .next)

/-- Embeds main's handling of the `checkMaterialArgs` result
(mechanics_driver.cpp lines 239-244): an error code of 1 is reported to cerr
on rank 0 only, and control flow continues unconditionally into the mesh
setup. -/
def validationPhase (parsed : MatFlags) (ngrains : Int) (myid : Nat) : Bool × ExitOutcome :=
  let err := (mainValidation parsed ngrains).1
  ((err == 1) && (myid == 0), .next)

/-- Embeds NonZeroBdrFunc (mechanics_driver.cpp lines 739-751): the output
vector y (of length dim, the coefficient dimension) is zeroed and then its
component of index 2 is set to -0.1.  The spatial point x and the time t are
ignored by the body. -/
def NonZeroBdrFunc (x : List ℚ) (t : ℚ) (dim : Nat) : List ℚ :=
  let y := List.replicate dim (0 : ℚ)
  y.set 2 (-(1/10))

/-- Result of one mfem NewtonSolver::Mult call: the final iterate and the
converged flag the solver exposes through GetConverged. -/
structure NewtonOutcome where
  xOut : List ℚ
  converged : Bool

/-- Embeds NonlinearMechOperator::Solve (mechanics_driver.cpp lines
655-661).  The Newton solver (library code, abstracted as the `newton`
argument) is run exactly once on x; then MFEM_VERIFY aborts the run when the
solver did not converge, and otherwise the mutated x is the result.  No
retry, no fallback value. -/
def NonlinearMechOperatorSolve (newton : List ℚ → NewtonOutcome) (x : List ℚ) :
    Except String (List ℚ) :=
  let r := newton x
  if r.converged then .ok r.xOut
  else .error "Newton Solver did not converge."

/-- State of the NonlinearMechOperator member pointers during construction:
`none` models a member pointer the constructor body has not yet assigned. -/
structure CtorState where
  hform : Option Unit
deriving DecidableEq, Repr

/-- Embeds the call `Hform->SetEssentialBC(ess_bdr, rhs)` at line 559 of the
constructor body: calling a member function through Hform while the pointer
is still unassigned is an invalid dereference. -/
def hformSetEssentialBC (s : CtorState) : Except String CtorState :=
  match s.hform with
  | none => .error "SetEssentialBC called through uninitialized Hform"
  | some _ => .ok s

/-- Embeds the NonlinearMechOperator constructor body
(mechanics_driver.cpp lines 542-652) up to the model selection.  The member
pointer Hform receives no initializer before the body runs, the body calls
SetEssentialBC through it at line 559, and only at line 585 assigns
`Hform = new ParNonlinearForm(&fes)`; afterwards the model branch of lines
588-598 runs.  Returns the constructor state and bound model, or the error
raised by the invalid dereference. -/
def nonlinearMechOperatorCtor (hyperelastic umat : Bool) :
    Except String (CtorState × ConstitutiveModel) :=
  let s : CtorState := ⟨none⟩
  (hformSetEssentialBC s).bind fun s1 =>
    let s2 : CtorState := { s1 with hform := some () }
    .ok (s2, selectModel hyperelastic umat)

/-- Embeds `dt_real = min(dt, t_final - t)` (mechanics_driver.cpp line 450),
with doubles modelled as exact rationals. -/
def dtReal (dt t_final t : ℚ) : ℚ := min dt (t_final - t)

/-- Embeds the exit test `last_step = (t >= t_final - 1e-8*dt)`
(mechanics_driver.cpp line 477), evaluated at the already-advanced t. -/
def lastStep (dt t_final t : ℚ) : Bool := decide (t ≥ t_final - (1/100000000) * dt)

/-- Embeds the driver time loop of main (mechanics_driver.cpp lines
442-532), recorded as the sequence of time values t the loop reaches: every
iteration computes dt_real, advances t by it, solves, tests last_step, and
unconditionally writes one mesh snapshot and one deformation snapshot for
this rank.  The recursion is fuel-indexed; `none` means the fuel ran out
before last_step became true. -/
def timeLoop (dt t_final : ℚ) (t : ℚ) : Nat → Option (List ℚ)
  | 0 => none
  | fuel + 1 =>
    let t1 := t + dtReal dt t_final t
    if lastStep dt t_final t1 then some [t1]
    else (timeLoop dt t_final t1 fuel).map (t1 :: ·)

/-- The number of mesh/deformation snapshot pairs one rank writes during the
time loop: the write block at lines 511-530 of mechanics_driver.cpp runs on
every iteration, so there is exactly one pair per completed iteration. -/
def outputPairsPerRank (dt t_final : ℚ) (fuel : Nat) : Option Nat :=
  (timeLoop dt t_final 0 fuel).map List.length

/-- The mesh data setGrainData reads: the number of elements owned by the
finite-element space, the distinct-attribute array `pmesh->attributes`, the
per-element attribute, and the quadrature-point count of the rule
`IntRules.Get(geom, 2*order + 3)` of each element. -/
structure GrainMesh where
  numElements : Nat
  attributes : List Nat
  elemAttribute : Nat → Nat
  npts : Nat → Nat

/-- The per-quadrature-point values the loop body of setGrainData
(mechanics_driver.cpp lines 839-869) stores for one element: for quadrature
point j and component k it writes
`grain_data[k + grain_offset * elem_atr]` into slot `k + grain_offset * j`,
where `elem_atr = pmesh->attributes[fe_space->GetAttribute(i)]` (line 846)
- the distinct-attribute array indexed by the element attribute value. -/
def setGrainDataElem (grain_data : List ℚ) (grain_offset : Nat) (mesh : GrainMesh)
    (i : Nat) : List ℚ :=
  let elem_atr := mesh.attributes.getD (mesh.elemAttribute i) 0
  (List.range (mesh.npts i)).flatMap fun _j =>
    (List.range grain_offset).map fun k =>
      grain_data.getD (k + grain_offset * elem_atr) 0

/-- Embeds setGrainData (mechanics_driver.cpp lines 816-870) faithfully to
its pointer handling.  After `matVars->SetSpace(qspace, grain_offset)` the
statement `matVars = 0;` assigns the null pointer to the local pointer
variable matVars (not zero to the pointed-to data), so inside the element
loop the call `matVars->GetElementValues(i, elem_vec)` dereferences a null
pointer.  The local pointer state is threaded explicitly; the element loop
raises the invalid dereference as soon as it runs, and only a mesh with no
elements completes the function. -/
def setGrainData (grain_data : List ℚ) (grain_offset : Nat) (mesh : GrainMesh) :
    Except String (List (List ℚ)) :=
  let matVars : Option Unit := some ()
  let matVars : Option Unit := none
  (List.range mesh.numElements).foldlM
    (fun acc i =>
      match matVars with
      | none => .error "GetElementValues called through null matVars"
      | some _ => .ok (acc ++ [setGrainDataElem grain_data grain_offset mesh i]))
    []

/-- C7: when the crystal-plasticity flag is true and hyperelastic is false,
checkMaterialArgs returns error code 1 unless exactly one orientation
representation (Euler, quaternion, or uniform) is chosen and ngrains is at
least 1; in particular crystal plasticity with no orientation flag and
ngrains = 5 returns 1, and crystal plasticity with euler and quaternion both
set returns 1. -/
theorem C7_cp_orientation_validation :
    (∀ (umat grain_euler grain_q grain_uniform : Bool) (ngrains : Int),
      ¬(exactlyOneOrientation grain_euler grain_q grain_uniform = true ∧ 1 ≤ ngrains) →
      checkMaterialArgs false umat true grain_euler grain_q grain_uniform ngrains = 1) ∧
    (∀ umat : Bool, checkMaterialArgs false umat true false false false 5 = 1) ∧
    (∀ (umat : Bool) (ngrains : Int),
      checkMaterialArgs false umat true true true false ngrains = 1) := by
  refine ⟨?_, ?_, ?_⟩
  · intro umat ge gq gu ng h
    cases umat <;> cases ge <;> cases gq <;> cases gu <;>
      simp_all [checkMaterialArgs, checkMaterialArgsRun, exactlyOneOrientation]
  · intro umat
    cases umat <;> decide
  · intro umat ng
    cases umat <;> simp [checkMaterialArgs, checkMaterialArgsRun]

/-- Witness for C7 at a concrete invalid combination: euler chosen but
ngrains = 0. -/
theorem C7_witness :
    ¬(exactlyOneOrientation true false false = true ∧ 1 ≤ (0 : Int)) ∧
    checkMaterialArgs false false true true false false 0 = 1 :=
  ⟨by decide, C7_cp_orientation_validation.1 false true false false 0 (by decide)⟩

/-- C10: checkMaterialArgs receives all six flags and the grain count by
value and is pure with respect to the caller: on every input it returns
only 0 or 1, and main's flag variables after the validation step equal the
parsed values, even though the validator does reassign its local flag
copies internally (last conjunct exhibits such a reassignment). -/
theorem C10_checkMaterialArgs_pure :
    (∀ (h u c ge gq gu : Bool) (ng : Int),
      checkMaterialArgs h u c ge gq gu ng = 0 ∨ checkMaterialArgs h u c ge gq gu ng = 1) ∧
    (∀ (parsed : MatFlags) (ng : Int), (mainValidation parsed ng).2 = parsed) ∧
    (checkMaterialArgsRun true true true true true true 5).2 ≠
      MatFlags.mk true true true true true true := by
  refine ⟨?_, ?_, by decide⟩
  · intro h u c ge gq gu ng
    cases h <;> cases u <;> cases c <;> cases ge <;> cases gq <;> cases gu <;>
      by_cases hng : ng < 1 <;>
      simp [checkMaterialArgs, checkMaterialArgsRun, hng]
  · intro parsed ng
    rfl

/-- C1 counterexample: with hyperelastic = true and umat = true parsed from
the command line, the caller-visible configuration after validation still
has umat = true (not forced off), and the mechanics operator constructor
binds the Abaqus user-material model, not the Neo-Hookean hyperelastic
model, because the constructor tests umat first. -/
theorem C1_counterexample :
    (mainValidation ⟨true, true, false, false, false, false⟩ 0).2.umat = true ∧
    selectModel true true = ConstitutiveModel.abaqusUmat ∧
    ConstitutiveModel.abaqusUmat ≠ ConstitutiveModel.neoHookean (1/4) 5 := by
  refine ⟨rfl, rfl, ?_⟩
  intro h
  exact ConstitutiveModel.noConfusion h

/-- C1 amended: when hyperelastic is true, checkMaterialArgs forces its
local copies of all other model-selection flags off and returns 0, but the
flags are passed by value so the caller's configuration keeps the parsed
values; the operator constructor binds the Neo-Hookean model only when umat
is false, the user-material model taking precedence when umat is also
true. -/
theorem C1_hyperelastic_amended :
    ∀ (umat cp ge gq gu : Bool) (ng : Int),
      checkMaterialArgsRun true umat cp ge gq gu ng =
        (0, ⟨true, false, false, false, false, false⟩) ∧
      mainValidation ⟨true, umat, cp, ge, gq, gu⟩ ng =
        (0, ⟨true, umat, cp, ge, gq, gu⟩) ∧
      selectModel true umat =
        (if umat then ConstitutiveModel.abaqusUmat
         else ConstitutiveModel.neoHookean (1/4) 5) := by
  intro umat cp ge gq gu ng
  refine ⟨?_, ?_, ?_⟩
  · simp [checkMaterialArgsRun]
  · simp [mainValidation, checkMaterialArgs, checkMaterialArgsRun]
  · cases umat <;> rfl

/-- C8: when checkMaterialArgs reports error code 1, main writes the
inconsistency to cerr exactly on rank 0 and control flow continues past the
validation point; there is no exit or abort. -/
theorem C8_inconsistent_flags_nonfatal :
    ∀ (parsed : MatFlags) (ng : Int) (myid : Nat),
      (mainValidation parsed ng).1 = 1 →
      (validationPhase parsed ng myid).2 = ExitOutcome.next ∧
      ((validationPhase parsed ng myid).1 = true ↔ myid = 0) := by
  intro parsed ng myid h
  refine ⟨rfl, ?_⟩
  simp [validationPhase, h]

/-- Witness for C8 at the concrete inconsistent configuration with only the
crystal-plasticity flag set and ngrains = 0, on rank 0. -/
theorem C8_witness :
    (mainValidation ⟨false, false, true, false, false, false⟩ 0).1 = 1 ∧
    ((validationPhase ⟨false, false, true, false, false, false⟩ 0 0).2 = ExitOutcome.next ∧
      ((validationPhase ⟨false, false, true, false, false, false⟩ 0 0).1 = true ↔ 0 = 0)) :=
  ⟨by decide, C8_inconsistent_flags_nonfatal ⟨false, false, true, false, false, false⟩ 0 0
    (by decide)⟩

/-- C3 counterexample: with crystal plasticity requested and the
grain-orientation file missing, rank 0 reports the error but the
grain-file check falls through - the process does not exit, contradicting
the claim that every missing input file terminates the run. -/
theorem C3_counterexample :
    grainOpenPhase true ⟨true, false⟩ 0 = (true, ExitOutcome.next) ∧
    ExitOutcome.next ≠ ExitOutcome.exit 2 := by
  refine ⟨rfl, ?_⟩
  intro h
  exact ExitOutcome.noConfusion h

/-- C3 amended: a missing mesh file on the stream path is reported on rank
0 and main returns exit status 2 before the solve; a missing
grain-orientation file under crystal plasticity is reported on rank 0 but
the process does not exit - execution continues toward the solve. -/
theorem C3_missing_file_amended :
    (∀ (env : FileEnv) (myid : Nat), env.meshFileOpens = false →
      meshOpenPhase false env myid = ((myid == 0 : Bool), ExitOutcome.exit 2)) ∧
    (∀ (env : FileEnv) (myid : Nat), env.grainFileOpens = false →
      grainOpenPhase true env myid = ((myid == 0 : Bool), ExitOutcome.next)) := by
  constructor
  · intro env myid h
    simp [meshOpenPhase, h]
  · intro env myid h
    simp [grainOpenPhase, h]

/-- Witness for the amended C3 on rank 0: a missing mesh file exits with
status 2, a missing grain file continues. -/
theorem C3_witness :
    ((FileEnv.mk false true).meshFileOpens = false ∧
      meshOpenPhase false ⟨false, true⟩ 0 = ((0 == 0 : Bool), ExitOutcome.exit 2)) ∧
    ((FileEnv.mk true false).grainFileOpens = false ∧
      grainOpenPhase true ⟨true, false⟩ 0 = ((0 == 0 : Bool), ExitOutcome.next)) :=
  ⟨⟨rfl, C3_missing_file_amended.1 ⟨false, true⟩ 0 rfl⟩,
   ⟨rfl, C3_missing_file_amended.2 ⟨true, false⟩ 0 rfl⟩⟩

/-- C4: Solve runs the Newton solver once on x; when the solver converges
the mutated iterate is the result, and when it does not converge
MFEM_VERIFY aborts the run - no partial or best-effort result is ever
returned and there is no retry. -/
theorem C4_solve_hard_stop :
    ∀ (newton : List ℚ → NewtonOutcome) (x : List ℚ),
      ((newton x).converged = true →
        NonlinearMechOperatorSolve newton x = .ok (newton x).xOut) ∧
      ((newton x).converged = false →
        NonlinearMechOperatorSolve newton x =
          .error "Newton Solver did not converge.") := by
  intro newton x
  constructor
  · intro h
    simp [NonlinearMechOperatorSolve, h]
  · intro h
    simp [NonlinearMechOperatorSolve, h]

/-- Witness for C4: a Newton solver that never converges makes Solve abort
with the MFEM_VERIFY message. -/
theorem C4_witness :
    ((fun v => NewtonOutcome.mk v false) [0]).converged = false ∧
    NonlinearMechOperatorSolve (fun v => NewtonOutcome.mk v false) [0] =
      .error "Newton Solver did not converge." :=
  ⟨rfl, (C4_solve_hard_stop (fun v => NewtonOutcome.mk v false) [0]).2 rfl⟩

/-- C9: contrary to the claim, every construction of NonlinearMechOperator
dereferences the uninitialized member pointer Hform: the constructor body
calls Hform->SetEssentialBC at line 559 while the assignment
Hform = new ParNonlinearForm(&fes) only happens at line 585. -/
theorem C9_ctor_uninitialized_hform :
    ∀ hyperelastic umat : Bool,
      nonlinearMechOperatorCtor hyperelastic umat =
        .error "SetEssentialBC called through uninitialized Hform" := by
  intro hyperelastic umat
  rfl

/-- C2: contrary to the claim, setGrainData crashes on every mesh with at
least one element: the statement `matVars = 0;` nulls the local pointer,
so the element loop dereferences null at GetElementValues.  The second
conjunct shows the loop body it was meant to run (setGrainDataElem) does
assign identical slices to elements sharing an attribute, but the slice
index is attributes[GetAttribute(i)], the distinct-attribute array indexed
by the attribute value, not the attribute itself. -/
theorem C2_setGrainData_crashes :
    (∀ (grain_data : List ℚ) (grain_offset : Nat) (mesh : GrainMesh),
      0 < mesh.numElements →
      setGrainData grain_data grain_offset mesh =
        .error "GetElementValues called through null matVars") ∧
    (∀ (grain_data : List ℚ) (grain_offset : Nat) (mesh : GrainMesh) (i1 i2 : Nat),
      mesh.elemAttribute i1 = mesh.elemAttribute i2 → mesh.npts i1 = mesh.npts i2 →
      setGrainDataElem grain_data grain_offset mesh i1 =
        setGrainDataElem grain_data grain_offset mesh i2) := by
  constructor
  · intro grain_data grain_offset mesh h
    obtain ⟨n, hn⟩ : ∃ n, mesh.numElements = n + 1 :=
      ⟨mesh.numElements - 1, (Nat.succ_pred_eq_of_pos h).symm⟩
    simp only [setGrainData, hn, List.range_succ_eq_map, List.foldlM_cons]
    rfl
  · intro grain_data grain_offset mesh i1 i2 hatr hnpts
    simp [setGrainDataElem, hatr, hnpts]

/-- Witness for C2 at a one-element mesh with attribute 1, three components
per grain and eight quadrature points: the call crashes. -/
theorem C2_witness :
    0 < (GrainMesh.mk 1 [1] (fun _ => 1) (fun _ => 8)).numElements ∧
    setGrainData [1, 2, 3] 3 (GrainMesh.mk 1 [1] (fun _ => 1) (fun _ => 8)) =
      .error "GetElementValues called through null matVars" :=
  ⟨Nat.one_pos,
   C2_setGrainData_crashes.1 [1, 2, 3] 3 (GrainMesh.mk 1 [1] (fun _ => 1) (fun _ => 8))
     Nat.one_pos⟩

/-- C6: for every spatial point x, every time t and every coordinate index
i of the output vector, NonZeroBdrFunc returns -0.1 in coordinate 2 and 0
in every other coordinate, and its value does not depend on the evaluation
time. -/
theorem C6_nonzero_bdr_constant :
    ∀ (x : List ℚ) (t t2 : ℚ) (dim i : Nat), i < dim →
      NonZeroBdrFunc x t dim = NonZeroBdrFunc x t2 dim ∧
      (NonZeroBdrFunc x t dim).getD i 0 = if i = 2 then -(1/10) else 0 := by
  intro x t t2 dim i h
  refine ⟨rfl, ?_⟩
  unfold NonZeroBdrFunc
  rcases eq_or_ne i 2 with rfl | hne
  · simp [List.getD_eq_getElem?_getD, List.getElem?_set_eq_of_lt, h]
  · simp [List.getD_eq_getElem?_getD, List.getElem?_set_ne (Ne.symm hne),
      List.getElem?_replicate, h, hne]

/-- Witness for C6 at the cube-mesh dimension 3, coordinate 2, two distinct
times. -/
theorem C6_witness :
    2 < 3 ∧
    (NonZeroBdrFunc [0, 0, 0] 0 3 = NonZeroBdrFunc [0, 0, 0] 1 3 ∧
      (NonZeroBdrFunc [0, 0, 0] 0 3).getD 2 0 = if 2 = 2 then -(1/10) else 0) :=
  ⟨by decide, C6_nonzero_bdr_constant [0, 0, 0] 0 1 3 2 (by decide)⟩

/-- Helper for C5: with a positive step size the loop reaches last_step
within n+1 iterations whenever n*dt of time budget remains, because each
iteration advances t to min(t + dt, t_final). -/
theorem timeLoop_total (dt t_final : ℚ) (hdt : 0 < dt) :
    ∀ (n : Nat) (t : ℚ), t_final - t ≤ n * dt →
      ∃ ts, timeLoop dt t_final t (n + 1) = some ts := by
  intro n
  induction n with
  | zero =>
    intro t ht
    refine ⟨[t + dtReal dt t_final t], ?_⟩
    have hmin : dtReal dt t_final t = t_final - t := by
      unfold dtReal
      exact min_eq_right (by simp at ht; nlinarith)
    have hls : lastStep dt t_final (t + dtReal dt t_final t) = true := by
      unfold lastStep
      rw [hmin]
      simp
      nlinarith
    simp [timeLoop, hls]
  | succ n ih =>
    intro t ht
    by_cases hls : lastStep dt t_final (t + dtReal dt t_final t) = true
    · exact ⟨[t + dtReal dt t_final t], by simp [timeLoop, hls]⟩
    · have hbound : t_final - (t + dtReal dt t_final t) ≤ n * dt := by
        unfold dtReal
        rcases le_total dt (t_final - t) with hc | hc
        · rw [min_eq_left hc]
          push_cast [Nat.cast_succ] at ht ⊢
          nlinarith
        · rw [min_eq_right hc]
          have : (0 : ℚ) ≤ n * dt := by positivity
          linarith
      obtain ⟨ts, hts⟩ := ih (t + dtReal dt t_final t) hbound
      refine ⟨(t + dtReal dt t_final t) :: ts, ?_⟩
      conv_lhs => rw [timeLoop]
      rw [if_neg hls, hts]
      rfl

/-- C5: with a positive step size the driver time loop terminates, and in
the end-to-end scenario t_final = 1, dt = 1/5 it runs exactly 5 iterations
reaching times 1/5, 2/5, 3/5, 4/5, 1 - monotonically non-decreasing and
ending at 1 - each iteration writing one mesh/deformation snapshot pair
per rank, hence 5 pairs per rank. -/
theorem C5_time_loop :
    (∀ dt t_final : ℚ, 0 < dt → ∃ fuel ts, timeLoop dt t_final 0 fuel = some ts) ∧
    timeLoop (1/5) 1 0 6 = some [1/5, 2/5, 3/5, 4/5, 1] ∧
    outputPairsPerRank (1/5) 1 6 = some 5 ∧
    List.Chain' (· ≤ ·) [(1 : ℚ)/5, 2/5, 3/5, 4/5, 1] ∧
    [(1 : ℚ)/5, 2/5, 3/5, 4/5, 1].getLast? = some 1 := by
  refine ⟨?_, ?_, ?_, ?_, rfl⟩
  · intro dt t_final hdt
    obtain ⟨n, hn⟩ := exists_nat_ge (t_final / dt)
    have hbudget : t_final - 0 ≤ n * dt := by
      rw [sub_zero]
      calc t_final = (t_final / dt) * dt := by field_simp
        _ ≤ n * dt := by nlinarith
    obtain ⟨ts, hts⟩ := timeLoop_total dt t_final hdt n 0 hbudget
    exact ⟨n + 1, ts, hts⟩
  · norm_num [timeLoop, dtReal, lastStep, min_def]
  · unfold outputPairsPerRank
    norm_num [timeLoop, dtReal, lastStep, min_def]
  · norm_num

/-- Witness for C5 instantiating the termination statement at dt = 1/2,
t_final = 3. -/
theorem C5_witness : ∃ fuel ts, timeLoop (1/2) 3 0 fuel = some ts :=
  C5_time_loop.1 (1/2) 3 (by norm_num)
